import Mathlib

/-!
Verification development for the conversational-AI safety gateway.

The definitions below are a shallow embedding of the TypeScript sources:
  * `src/types/safety.ts`   — safety data model and platform defaults
  * `src/safety/safety-filter.ts` — config merger and keyword pre-filter
  * `src/safety/keyword-lists.ts` — topic pattern library (regexes)
  * `src/safety/llm-safety-checker.ts` — semantic classifier (judge verdicts)
  * `src/safety/safety-checker.ts` — older `SafetyChecker` class variant
  * `src/routes/chat.ts`    — orchestrator (chat request pipeline)

JavaScript runtime conventions are modelled explicitly:
  * a possibly-absent (`undefined`) object field is an `Option`;
  * JS truthiness of numbers (`0` falsy) and strings (`""` falsy) is
    modelled where the source relies on it;
  * string lengths are code-unit counts; all strings involved are ASCII,
    where JS `.length` and Lean `String.length` agree;
  * the external judge-model and provider calls are modelled by their
    outcome (`Except`): either the returned text or a thrown error.
-/

/-- Topic categories that can be blocked (`BlockedTopic` in `types/safety.ts`). -/
inductive BlockedTopic where
  | violence
  | sexual_content
  | self_harm
  | hate_speech
  | drugs_alcohol
  | profanity
  | personal_information
  | dangerous_activities
  | academic_dishonesty
deriving DecidableEq

/-- Runtime string name of a topic (the TS union is a union of string literals). -/
def BlockedTopic.name : BlockedTopic → String
  | .violence => "violence"
  | .sexual_content => "sexual_content"
  | .self_harm => "self_harm"
  | .hate_speech => "hate_speech"
  | .drugs_alcohol => "drugs_alcohol"
  | .profanity => "profanity"
  | .personal_information => "personal_information"
  | .dangerous_activities => "dangerous_activities"
  | .academic_dishonesty => "academic_dishonesty"

/-- Strictness level (`SafetyLevel` in `types/safety.ts`). -/
inductive SafetyLevel where
  | strict
  | moderate
deriving DecidableEq

/-- Judge-model provider for the semantic layer. -/
inductive JudgeProvider where
  | gpt
  | claude
  | gemini
deriving DecidableEq

/-- Embeds `LLMSafetyModelSpec` in `types/safety.ts`. -/
structure LLMSafetyModelSpec where
  provider : JudgeProvider
  modelId : String
deriving DecidableEq

/-- Embeds `LLMSafetyConfig` in `types/safety.ts`. -/
structure LLMSafetyConfig where
  enabled : Bool
  model : LLMSafetyModelSpec
  customPrompt : Option String := none
deriving DecidableEq

/-- Embeds `SafetyConfig` in `types/safety.ts`.

The TS interface declares `llmSafety` as a required field; at the JS runtime
an object typed `SafetyConfig` can nevertheless lack the field (it is then
`undefined`), which we model with `Option`.  The platform default carries
`some`. The field `systemPromptPfx` embeds the TS field `systemPromptPrefix`
(renamed here). -/
structure SafetyConfig where
  level : SafetyLevel
  blockedTopics : List BlockedTopic
  maxInputLength : Nat
  maxOutputTokens : Nat
  allowImageInput : Bool
  allowFileUpload : Bool
  allowedFileMimeTypes : List String
  maxFileSizeBytes : Nat
  systemPromptPfx : String
  llmSafety : Option LLMSafetyConfig
deriving DecidableEq

/-- Embeds `DEFAULT_LLM_SAFETY_MODEL` in `types/safety.ts`. -/
def DEFAULT_LLM_SAFETY_MODEL : LLMSafetyModelSpec :=
  { provider := .gpt, modelId := "gpt-4o-mini" }

/-- JS `Array.prototype.join(sep)` (same as `String.intercalate`), written
with structural recursion so that the kernel can evaluate it in `rfl` and
`decide` proofs. -/
def jsJoin (sep : String) : List String → String
  | [] => ""
  | x :: xs => xs.foldl (fun acc y => acc ++ sep ++ y) x

/-- JS `String.prototype.trim()` (same as `String.trim`), written with
list recursion so that the kernel can evaluate it. -/
def jsTrim (s : String) : String :=
  String.mk (((s.toList.dropWhile Char.isWhitespace).reverse.dropWhile
    Char.isWhitespace).reverse)

/-- Embeds `DEFAULT_SAFETY_CONFIG` in `types/safety.ts` (the platform default).
The long `systemPromptPrefix` literal is embedded verbatim (joined by a
single space, as `[...].join(" ")` does in the source). -/
def DEFAULT_SAFETY_CONFIG : SafetyConfig :=
  { level := .strict
    blockedTopics :=
      [ .violence, .sexual_content, .self_harm, .hate_speech, .drugs_alcohol,
        .profanity, .personal_information, .dangerous_activities,
        .academic_dishonesty ]
    maxInputLength := 2000
    maxOutputTokens := 1024
    allowImageInput := true
    allowFileUpload := true
    allowedFileMimeTypes :=
      ["application/pdf", "text/plain", "image/png", "image/jpeg"]
    maxFileSizeBytes := 5 * 1024 * 1024
    systemPromptPfx :=
      jsJoin " "
        [ "You are a helpful educational assistant for middle school students (ages 10-14).",
          "Always provide age-appropriate, safe, and educational responses.",
          "Never produce content involving violence, sexual themes, self-harm, hate speech, drugs, alcohol, or profanity.",
          "Do not ask for or reveal personal information such as full names, addresses, phone numbers, or school names.",
          "If a student asks about dangerous activities, redirect them to speak with a trusted adult.",
          "Do not help with cheating or academic dishonesty. Guide students toward understanding rather than giving direct answers.",
          "Keep language simple, encouraging, and supportive." ]
    llmSafety := some { enabled := true, model := DEFAULT_LLM_SAFETY_MODEL } }

/-- The nested semantic-layer override object accepted by the request schema
(`LLMSafetyConfigSchema` in `middleware/validate.ts`); `mergeSafetyConfig`
never reads it. -/
structure LLMSafetyOverrides where
  enabled : Option Bool := none
  model : Option LLMSafetyModelSpec := none
  customPrompt : Option String := none
deriving DecidableEq

/-- A caller-supplied override object for `SafetyConfig` (each field may be
absent).  Mirrors `SafetyConfigOverrideSchema` in `middleware/validate.ts`. -/
structure SafetyOverrides where
  level : Option SafetyLevel := none
  blockedTopics : Option (List BlockedTopic) := none
  maxInputLength : Option Nat := none
  maxOutputTokens : Option Nat := none
  allowImageInput : Option Bool := none
  allowFileUpload : Option Bool := none
  allowedFileMimeTypes : Option (List String) := none
  maxFileSizeBytes : Option Nat := none
  systemPromptPfx : Option String := none
  llmSafety : Option LLMSafetyOverrides := none
deriving DecidableEq

/-- The override object with every field absent. -/
def emptyOverrides : SafetyOverrides := {}

/-- Models `[...new Set([...base, ...extra])]`: deduplication keeping the first
occurrence, in insertion order (JS `Set` iteration order). -/
def jsSetDedupAux {α : Type} [DecidableEq α] (seen : List α) : List α → List α
  | [] => []
  | x :: xs =>
      if x ∈ seen then jsSetDedupAux seen xs
      else x :: jsSetDedupAux (x :: seen) xs

/-- JS `Set`-based list dedup used by `unionTopics` in `safety-filter.ts`. -/
def jsSetDedup {α : Type} [DecidableEq α] (xs : List α) : List α :=
  jsSetDedupAux [] xs

/-- Embeds `unionTopics` in `safety-filter.ts`. -/
def unionTopics (base extra : List BlockedTopic) : List BlockedTopic :=
  jsSetDedup (base ++ extra)

/-- Embeds `intersectArrays` in `safety-filter.ts`: keep requested entries that the
platform allows. -/
def intersectArrays (base requested : List String) : List String :=
  requested.filter (fun t => base.contains t)

/-- JS truthiness of a possibly-absent number (zod restricts the overrides to
positive integers, but `0` would be falsy, as in the source `overrides.x ?`). -/
def truthyNum : Option Nat → Bool
  | none => false
  | some n => n != 0

/-- Embeds `mergeSafetyConfig` in `safety-filter.ts`.

Faithful to the source: the returned object literal does NOT contain an
`llmSafety` field when overrides are present (the source's return statement
omits it), hence `llmSafety := none` in that branch. -/
def mergeSafetyConfig (overrides : Option SafetyOverrides) : SafetyConfig :=
  match overrides with
  | none => DEFAULT_SAFETY_CONFIG
  | some o =>
      let defaults := DEFAULT_SAFETY_CONFIG
      { level :=
          if o.level = some .moderate ∧ defaults.level = .strict then .strict
          else o.level.getD defaults.level
        blockedTopics :=
          match o.blockedTopics with
          | some ts => unionTopics defaults.blockedTopics ts
          | none => defaults.blockedTopics
        maxInputLength :=
          if truthyNum o.maxInputLength then
            min (o.maxInputLength.getD 0) defaults.maxInputLength
          else defaults.maxInputLength
        maxOutputTokens :=
          if truthyNum o.maxOutputTokens then
            min (o.maxOutputTokens.getD 0) defaults.maxOutputTokens
          else defaults.maxOutputTokens
        allowImageInput :=
          if o.allowImageInput = some false then false else defaults.allowImageInput
        allowFileUpload :=
          if o.allowFileUpload = some false then false else defaults.allowFileUpload
        allowedFileMimeTypes :=
          match o.allowedFileMimeTypes with
          | some ts => intersectArrays defaults.allowedFileMimeTypes ts
          | none => defaults.allowedFileMimeTypes
        maxFileSizeBytes :=
          if truthyNum o.maxFileSizeBytes then
            min (o.maxFileSizeBytes.getD 0) defaults.maxFileSizeBytes
          else defaults.maxFileSizeBytes
        systemPromptPfx :=
          match o.systemPromptPfx with
          | some s =>
              if s ≠ "" then defaults.systemPromptPfx ++ " " ++ s
              else defaults.systemPromptPfx
          | none => defaults.systemPromptPfx
        llmSafety := none }

/-!  ## A small regex interpreter

`keyword-lists.ts` stores `RegExp` literals; `scanText` only ever calls
`re.test(text)`.  We embed each regex as a term of the `RE` type below and
give a backtracking matcher.  The matcher decides whether a match EXISTS,
which is exactly what `.test` reports.  All the source regexes carry the
`i` flag; we realise case-insensitivity by lowercasing the subject text and
writing the (all-ASCII) literals in lowercase. -/

/-- JS `\w` (ASCII word character). -/
def isWordChar (c : Char) : Bool :=
  c.isAlphanum || c = '_'

/-- JS `\s` (the ASCII part; the subject texts here are ASCII). -/
def isJsSpace (c : Char) : Bool :=
  c = ' ' || c = '\t' || c = '\n' || c = '\r' || c = '\x0b' || c = '\x0c'

/-- Regex subset used by the topic pattern library. -/
inductive RE where
  | lit (cs : List Char)
  | cls (p : Char → Bool)
  | plus (p : Char → Bool)
  | seq (a b : RE)
  | alt (a b : RE)
  | opt (a : RE)
  | wb

/-- Word boundary test between the previously consumed character and the
next character of the remaining input. -/
def atBoundary (prev : Option Char) (s : List Char) : Bool :=
  let prevW := match prev with | none => false | some c => isWordChar c
  let nextW := match s with | [] => false | c :: _ => isWordChar c
  prevW != nextW

/-- Consume a literal character sequence. -/
def matchLit (cs : List Char) (prev : Option Char) (s : List Char)
    (k : Option Char → List Char → Bool) : Bool :=
  match cs, s with
  | [], _ => k prev s
  | _ :: _, [] => false
  | c :: cs', d :: rest => d = c && matchLit cs' (some d) rest k

/-- Zero-or-more characters of a class (used after `plus` consumed one). -/
def matchStar (p : Char → Bool) (prev : Option Char) (s : List Char)
    (k : Option Char → List Char → Bool) : Bool :=
  k prev s ||
    match s with
    | [] => false
    | c :: rest => p c && matchStar p (some c) rest k

/-- CPS matcher: does `re` match a prefix of `s` (with `prev` the character
just before `s`, for word boundaries), continuing with `k`? -/
def matchRE : RE → Option Char → List Char → (Option Char → List Char → Bool) → Bool
  | .lit cs, prev, s, k => matchLit cs prev s k
  | .cls p, _, s, k =>
      (match s with
       | [] => false
       | c :: rest => p c && k (some c) rest)
  | .plus p, _, s, k =>
      (match s with
       | [] => false
       | c :: rest => p c && matchStar p (some c) rest k)
  | .seq a b, prev, s, k => matchRE a prev s (fun p2 s2 => matchRE b p2 s2 k)
  | .alt a b, prev, s, k => matchRE a prev s k || matchRE b prev s k
  | .opt a, prev, s, k => k prev s || matchRE a prev s k
  | .wb, prev, s, k => atBoundary prev s && k prev s

/-- Unanchored search: try to match at every start position. -/
def searchFrom (re : RE) (prev : Option Char) (s : List Char) : Bool :=
  matchRE re prev s (fun _ _ => true) ||
    match s with
    | [] => false
    | c :: rest => searchFrom re (some c) rest

/-- Models `re.test(text)` for a case-insensitive regex: search the lowercased text. -/
def reTest (re : RE) (text : String) : Bool :=
  searchFrom re none (text.toList.map Char.toLower)

/-- Literal regex piece (written lowercase; subjects are lowercased). -/
def rlit (s : String) : RE := .lit s.toList

/-- Sequence of regex pieces. -/
def rseq (l : List RE) : RE := l.foldr RE.seq (rlit "")

/-- Alternation `(x|y|...)`. -/
def ralt : List RE → RE
  | [] => .cls (fun _ => false)
  | [x] => x
  | x :: xs => .alt x (ralt xs)

/-- Regex `\s+`. -/
def ws : RE := .plus isJsSpace

/-- Regex `\b`. -/
def wb : RE := RE.wb

/-- Embeds `TOPIC_PATTERNS` in `keyword-lists.ts`: each topic's regex list,
transliterated pattern by pattern. -/
def TOPIC_PATTERNS : BlockedTopic → List RE
  | .violence =>
      [ rseq [wb, rlit "kill", ws,
          ralt [rlit "you", rlit "him", rlit "her", rlit "them",
                rlit "myself", rlit "yourself", rlit "someone"], wb],
        rseq [wb, rlit "school", ws, rlit "shoot"],
        rseq [wb, rlit "bomb", ws, rlit "threat"],
        rseq [wb, rlit "how", ws, rlit "to", ws,
          ralt [rlit "make", rlit "build"], ws,
          .opt (rseq [rlit "a", ws]),
          ralt [rlit "weapon", rlit "bomb", rlit "gun"]],
        rseq [wb, rlit "torture", wb],
        rseq [wb, rlit "murder", wb] ]
  | .sexual_content =>
      [ rseq [wb, rlit "porn"],
        rseq [wb, rlit "sexual", ws, rlit "content"],
        rseq [wb, rlit "nude"],
        rseq [wb, rlit "explicit", wb],
        rseq [wb, rlit "nsfw", wb] ]
  | .self_harm =>
      [ rseq [wb, rlit "kill", ws, rlit "myself", wb],
        rseq [wb, rlit "suicid"],
        rseq [wb, rlit "self", .opt (.cls (fun c => c = '-' || c = ' ')), rlit "harm"],
        rseq [wb, rlit "cut", ws, rlit "myself", wb],
        rseq [wb, rlit "want", ws, rlit "to", ws, rlit "die", wb],
        rseq [wb, rlit "end", ws, rlit "my", ws, rlit "life", wb] ]
  | .hate_speech =>
      [ rseq [wb, rlit "slur"],
        rseq [wb, rlit "hate", ws, ralt [rlit "all", rlit "every"], ws, .plus isWordChar],
        rseq [wb, rlit "racist", wb],
        rseq [wb, rlit "homophob"],
        rseq [wb, rlit "transphob"],
        rseq [wb, rlit "xenophob"] ]
  | .drugs_alcohol =>
      [ rseq [wb, rlit "how", ws, rlit "to", ws,
          ralt [rlit "buy", rlit "get", rlit "make", rlit "use"], ws,
          ralt [rlit "drugs", rlit "weed", rlit "cocaine", rlit "meth",
                rlit "heroin", rlit "alcohol"], wb],
        rseq [wb, rlit "get", ws, ralt [rlit "high", rlit "drunk", rlit "wasted"], wb],
        rseq [wb, rlit "vaping", wb] ]
  | .profanity =>
      [ rseq [wb, .plus (fun c => c = 'f'), .plus (fun c => c = 'u'),
          .plus (fun c => c = 'c'), .plus (fun c => c = 'k')],
        rseq [wb, .plus (fun c => c = 's'), .plus (fun c => c = 'h'),
          .plus (fun c => c = 'i'), .plus (fun c => c = 't'), wb],
        rseq [wb, rlit "as", .plus (fun c => c = 's'), rlit "hole"],
        rseq [wb, rlit "bitch"],
        rseq [wb, rlit "damn", wb] ]
  | .personal_information =>
      [ rseq [wb, rlit "my", ws, .opt (rseq [rlit "home", ws]),
          rlit "address", ws, rlit "is", wb],
        rseq [wb, rlit "my", ws, rlit "phone", ws, .opt (rseq [rlit "number", ws]),
          rlit "is", wb],
        rseq [wb, rlit "my", ws, rlit "social", ws, rlit "security"],
        rseq [wb, rlit "my", ws, rlit "password", ws, rlit "is", wb],
        rseq [wb, rlit "ssn", wb] ]
  | .dangerous_activities =>
      [ rseq [wb, rlit "how", ws, rlit "to", ws,
          ralt [rlit "make", rlit "build"], ws,
          .opt (rseq [rlit "a", ws]),
          ralt [rlit "fire", rlit "explosive", rlit "poison"]],
        rseq [wb, rlit "how", ws, rlit "to", ws, rlit "hack", wb],
        rseq [wb, rlit "how", ws, rlit "to", ws, rlit "steal", wb],
        rseq [wb, rlit "how", ws, rlit "to", ws, rlit "pick", ws, rlit "a", ws, rlit "lock"] ]
  | .academic_dishonesty =>
      [ rseq [wb, rlit "write", ws, rlit "my", ws, .opt (rseq [rlit "entire", ws]),
          ralt [rlit "essay", rlit "paper", rlit "homework", rlit "assignment"], wb],
        rseq [wb, rlit "do", ws, rlit "my", ws, rlit "homework", wb],
        rseq [wb, rlit "give", ws, rlit "me", ws, rlit "the", ws,
          rlit "answer", .opt (rlit "s"), wb],
        rseq [wb, rlit "complete", ws, rlit "this", ws,
          ralt [rlit "test", rlit "exam", rlit "quiz"], ws,
          rlit "for", ws, rlit "me", wb] ]

/-!  ## Keyword pre-filter (`safety-filter.ts`) -/

/-- Embeds `ContentPart` in `types/content.ts`. -/
inductive ContentPart where
  | text (text : String)
  | image (data : String) (mimeType : String)
  | file (data : String) (mimeType : String) (fileName : String)
deriving DecidableEq

/-- Message role. -/
inductive Role where
  | user
  | assistant
  | system
deriving DecidableEq

/-- Embeds `ChatMessage` in `types/index.ts`. -/
structure ChatMessage where
  role : Role
  content : List ContentPart
deriving DecidableEq

/-- Which safety layer produced a result (`source` tag / `layersRun` entries).
The source uses the string literals `"keyword"` and `"llm"`. -/
inductive Layer where
  | keyword
  | llm
deriving DecidableEq

/-- Embeds `SafetyCheckResult` in `types/safety.ts`.  `flaggedTopics` is a list of
runtime strings: the keyword filter puts topic names there, and the semantic
layer copies whatever the judge returned (the source casts it unchecked). -/
structure SafetyCheckResult where
  safe : Bool
  flaggedTopics : List String
  reason : Option String := none
  source : Option Layer := none
deriving DecidableEq

/-- Embeds `extractText` in `safety-filter.ts`: text parts joined by `" "`. -/
def extractText (parts : List ContentPart) : String :=
  jsJoin " "
    (parts.filterMap (fun p =>
      match p with
      | .text t => some t
      | _ => none))

/-- Embeds `scanText` in `safety-filter.ts`. -/
def scanText (text : String) (blockedTopics : List BlockedTopic) : SafetyCheckResult :=
  let flagged :=
    blockedTopics.filter (fun topic =>
      (TOPIC_PATTERNS topic).any (fun re => reTest re text))
  if flagged.length > 0 then
    { safe := false
      flaggedTopics := flagged.map BlockedTopic.name
      reason := some ("Content flagged for: " ++
        jsJoin ", " (flagged.map BlockedTopic.name)) }
  else
    { safe := true, flaggedTopics := [] }

/-- Node's `Buffer.byteLength(data, "base64")`: strip up to two trailing
`=` padding characters, then `(len * 3) >>> 2`. -/
def base64ByteLength (data : String) : Nat :=
  let cs := data.toList
  let cs1 := if cs.getLast? = some '=' then cs.dropLast else cs
  let cs2 :=
    if cs1.length > 1 ∧ cs1.getLast? = some '=' then cs1.dropLast else cs1
  cs2.length * 3 / 4

/-- Structural check of a single content part: `some r` is the violation
result, `none` means the part passes.  Transliterates the per-part branch
of `validateStructure` in `safety-filter.ts`. -/
def validatePart (cfg : SafetyConfig) : ContentPart → Option SafetyCheckResult
  | .text t =>
      if t.length > cfg.maxInputLength then
        some { safe := false, flaggedTopics := []
               reason := some ("Input text exceeds maximum length of " ++
                 toString cfg.maxInputLength ++ " characters") }
      else none
  | .image _ _ =>
      if ! cfg.allowImageInput then
        some { safe := false, flaggedTopics := []
               reason := some "Image input is not allowed by current safety configuration" }
      else none
  | .file data mimeType _ =>
      if ! cfg.allowFileUpload then
        some { safe := false, flaggedTopics := []
               reason := some "File upload is not allowed by current safety configuration" }
      else if ! cfg.allowedFileMimeTypes.contains mimeType then
        some { safe := false, flaggedTopics := []
               reason := some ("File type " ++ mimeType ++ " is not in the allowed list") }
      else if base64ByteLength data > cfg.maxFileSizeBytes then
        some { safe := false, flaggedTopics := []
               reason := some ("File size exceeds maximum of " ++
                 toString cfg.maxFileSizeBytes ++ " bytes") }
      else none

/-- Embeds `validateStructure` in `safety-filter.ts`: first violating part (in
message order, part order) wins; otherwise safe. -/
def validateStructure (messages : List ChatMessage) (cfg : SafetyConfig) :
    SafetyCheckResult :=
  match messages.findSome? (fun msg => msg.content.findSome? (validatePart cfg)) with
  | some r => r
  | none => { safe := true, flaggedTopics := [] }

/-- Embeds `checkInput` in `safety-filter.ts`: structural validation first, then a
keyword scan of each user message (first unsafe scan wins). -/
def checkInput (messages : List ChatMessage) (cfg : SafetyConfig) :
    SafetyCheckResult :=
  let structResult := validateStructure messages cfg
  if ! structResult.safe then structResult
  else
    match (messages.filter (fun m => m.role = .user)).findSome? (fun msg =>
        let r := scanText (extractText msg.content) cfg.blockedTopics
        if r.safe then none else some r) with
    | some r => r
    | none => { safe := true, flaggedTopics := [] }

/-- Embeds `checkOutput` in `safety-filter.ts`. -/
def checkOutput (message : ChatMessage) (cfg : SafetyConfig) : SafetyCheckResult :=
  scanText (extractText message.content) cfg.blockedTopics

/-!  ## JSON values and `JSON.parse`

The semantic classifier parses judge output with `JSON.parse`.  We embed a
JSON value type and a standard recursive-descent parser (fuel-indexed for
termination; the fuel `length + 1` always suffices because every recursive
step consumes at least one character).  Unicode surrogate pairs in `\u`
escapes are not recombined — no claim depends on them. -/

inductive Json where
  | null
  | bool (b : Bool)
  | num (repr : String)
  | str (s : String)
  | arr (items : List Json)
  | obj (fields : List (String × Json))

/-- JSON insignificant whitespace. -/
def jsonSkipWs (cs : List Char) : List Char :=
  cs.dropWhile (fun c => c = ' ' || c = '\t' || c = '\n' || c = '\r')

def hexVal? (c : Char) : Option Nat :=
  if '0' ≤ c ∧ c ≤ '9' then some (c.toNat - '0'.toNat)
  else if 'a' ≤ c ∧ c ≤ 'f' then some (c.toNat - 'a'.toNat + 10)
  else if 'A' ≤ c ∧ c ≤ 'F' then some (c.toNat - 'A'.toNat + 10)
  else none

def escChar? : Char → Option Char
  | '"' => some '"'
  | '\\' => some '\\'
  | '/' => some '/'
  | 'b' => some '\x08'
  | 'f' => some '\x0c'
  | 'n' => some '\n'
  | 'r' => some '\r'
  | 't' => some '\t'
  | _ => none

/-- Body of a JSON string (after the opening quote): returns the decoded
characters and the input remaining after the closing quote. -/
def parseJStringAux : List Char → Option (List Char × List Char)
  | [] => none
  | '"' :: rest => some ([], rest)
  | '\\' :: 'u' :: h1 :: h2 :: h3 :: h4 :: rest => do
      let v1 ← hexVal? h1
      let v2 ← hexVal? h2
      let v3 ← hexVal? h3
      let v4 ← hexVal? h4
      let (s, r) ← parseJStringAux rest
      pure (Char.ofNat (((v1 * 16 + v2) * 16 + v3) * 16 + v4) :: s, r)
  | '\\' :: c :: rest => do
      let e ← escChar? c
      let (s, r) ← parseJStringAux rest
      pure (e :: s, r)
  | c :: rest =>
      if c.toNat < 0x20 then none
      else do
        let (s, r) ← parseJStringAux rest
        pure (c :: s, r)

/-- One or more decimal digits. -/
def parseDigits1 (cs : List Char) : Option (List Char × List Char) :=
  let ds := cs.takeWhile Char.isDigit
  if ds.isEmpty then none else some (ds, cs.dropWhile Char.isDigit)

/-- Optional fraction part `.digits`. -/
def parseJNumFrac (cs : List Char) : Option (List Char × List Char) :=
  match cs with
  | '.' :: r => (parseDigits1 r).map (fun p => ('.' :: p.1, p.2))
  | _ => some ([], cs)

/-- Optional exponent part `[eE][+-]?digits`. -/
def parseJNumExp (cs : List Char) : Option (List Char × List Char) :=
  match cs with
  | c :: r =>
      if c = 'e' ∨ c = 'E' then
        match r with
        | s :: r2 =>
            if s = '+' ∨ s = '-' then
              (parseDigits1 r2).map (fun p => (c :: s :: p.1, p.2))
            else (parseDigits1 r).map (fun p => (c :: p.1, p.2))
        | [] => none
      else some ([], cs)
  | [] => some ([], cs)

/-- JSON number (strict grammar: no leading zeros, no bare `.`). -/
def parseJNumber (cs : List Char) : Option (List Char × List Char) :=
  let signed : List Char × List Char :=
    match cs with
    | '-' :: r => (['-'], r)
    | _ => ([], cs)
  let intPart : Option (List Char × List Char) :=
    match signed.2 with
    | '0' :: r => some (signed.1 ++ ['0'], r)
    | c :: r =>
        if c.isDigit then
          some (signed.1 ++ c :: r.takeWhile Char.isDigit, r.dropWhile Char.isDigit)
        else none
    | [] => none
  match intPart with
  | none => none
  | some (ip, rest) =>
      match parseJNumFrac rest with
      | none => none
      | some (fp, rest2) =>
          match parseJNumExp rest2 with
          | none => none
          | some (ep, rest3) => some (ip ++ fp ++ ep, rest3)

mutual

/-- JSON value (input must start with a non-whitespace character). -/
def parseJValue : Nat → List Char → Option (Json × List Char)
  | 0, _ => none
  | Nat.succ n, cs =>
    match cs with
    | 't' :: 'r' :: 'u' :: 'e' :: rest => some (.bool true, rest)
    | 'f' :: 'a' :: 'l' :: 's' :: 'e' :: rest => some (.bool false, rest)
    | 'n' :: 'u' :: 'l' :: 'l' :: rest => some (.null, rest)
    | '"' :: rest => (parseJStringAux rest).map (fun p => (.str (String.mk p.1), p.2))
    | '\x7b' :: rest =>
        (match jsonSkipWs rest with
         | '\x7d' :: r2 => some (.obj [], r2)
         | rest1 => parseJMembers n rest1 [])
    | '[' :: rest =>
        (match jsonSkipWs rest with
         | ']' :: r2 => some (.arr [], r2)
         | rest1 => parseJItems n rest1 [])
    | _ => (parseJNumber cs).map (fun p => (.num (String.mk p.1), p.2))

/-- Object members after `{` (at least one member). -/
def parseJMembers : Nat → List Char → List (String × Json) → Option (Json × List Char)
  | 0, _, _ => none
  | Nat.succ n, cs, acc =>
    match cs with
    | '"' :: rest =>
      (match parseJStringAux rest with
       | none => none
       | some (key, r1) =>
         match jsonSkipWs r1 with
         | ':' :: r2 =>
           (match parseJValue n (jsonSkipWs r2) with
            | none => none
            | some (v, r3) =>
              match jsonSkipWs r3 with
              | ',' :: r4 => parseJMembers n (jsonSkipWs r4) ((String.mk key, v) :: acc)
              | '\x7d' :: r4 => some (.obj ((String.mk key, v) :: acc).reverse, r4)
              | _ => none)
         | _ => none)
    | _ => none

/-- Array items after `[` (at least one item). -/
def parseJItems : Nat → List Char → List Json → Option (Json × List Char)
  | 0, _, _ => none
  | Nat.succ n, cs, acc =>
    match parseJValue n cs with
    | none => none
    | some (v, r1) =>
      match jsonSkipWs r1 with
      | ',' :: r2 => parseJItems n (jsonSkipWs r2) (v :: acc)
      | ']' :: r2 => some (.arr (v :: acc).reverse, r2)
      | _ => none

end

/-- Models `JSON.parse`: whole-string parse (trailing whitespace allowed). -/
def parseJson (s : String) : Option Json :=
  let cs := jsonSkipWs s.toList
  match parseJValue (cs.length + 1) cs with
  | some (v, rest) => if jsonSkipWs rest = [] then some v else none
  | none => none

/-- Property access on a parsed JSON value (JS `parsed.key`): only objects
have properties; a duplicate key keeps the last occurrence, as `JSON.parse`
does. -/
def Json.get? : Json → String → Option Json
  | .obj fields, key => (fields.reverse.find? (fun kv => kv.1 = key)).map (fun kv => kv.2)
  | _, _ => none

/-- Render a JSON leaf as text (used only to represent judge-supplied
`flaggedTopics` entries as strings; the claims only exercise string
entries and empty arrays). -/
def jsonToText : Json → String
  | .null => "null"
  | .bool true => "true"
  | .bool false => "false"
  | .num r => r
  | .str s => s
  | .arr _ => "<array>"
  | .obj _ => "<object>"

/-!  ## Semantic classifier (`llm-safety-checker.ts`)

The network call to the judge model is an external collaborator; it is
modelled by its outcome: `Except.ok raw` (the returned text) or
`Except.error ()` (a thrown transport error).  Everything after the call —
fence stripping, `JSON.parse`, field extraction, result construction — is
embedded from the source. -/

/-- Shape the judge model is expected to return (`LLMSafetyVerdict`). -/
structure LLMSafetyVerdict where
  safe : Bool
  flaggedTopics : List String
  reason : Option String
deriving DecidableEq

/-- Drop trailing JS whitespace. -/
def dropTrailingWs (cs : List Char) : List Char :=
  (cs.reverse.dropWhile isJsSpace).reverse

/-- Models `replace(/^```(?:json)?\s*/i, "")` applied to the text after the three
opening backticks. -/
def stripLeadingFence (afterTicks : List Char) : List Char :=
  let afterTag :=
    if (afterTicks.take 4).map Char.toLower = "json".toList then afterTicks.drop 4
    else afterTicks
  afterTag.dropWhile isJsSpace

/-- Models `replace(/\s*```\s*$/, "")`: remove a trailing fence (with surrounding
whitespace) when present; otherwise leave the text unchanged. -/
def stripTrailingFence (cs : List Char) : List Char :=
  let noWs := dropTrailingWs cs
  if "```".toList.isSuffixOf noWs then dropTrailingWs (noWs.take (noWs.length - 3))
  else cs

/-- Embeds `parseVerdict` in `llm-safety-checker.ts`.

NOTE the fail-open catch branch: when `JSON.parse` throws, the source
returns `{ safe: true, flaggedTopics: [], reason: null }` (treating the
unparseable verdict as SAFE, logging the failure). -/
def parseVerdict (raw : String) : LLMSafetyVerdict :=
  let cleaned := jsTrim raw
  let cleaned :=
    if "```".toList.isPrefixOf cleaned.toList then
      String.mk (stripTrailingFence (stripLeadingFence (cleaned.toList.drop 3)))
    else cleaned
  match parseJson cleaned with
  | some j =>
      { safe := match j.get? "safe" with | some (.bool b) => b | _ => true
        flaggedTopics :=
          match j.get? "flaggedTopics" with
          | some (.arr xs) => xs.map jsonToText
          | _ => []
        reason := match j.get? "reason" with | some (.str s) => some s | _ => none }
  | none => { safe := true, flaggedTopics := [], reason := none }

/-- Embeds `checkWithLLM` in `llm-safety-checker.ts`.

`judge` is the outcome of the dispatched judge-model call.  The result is
`none` when the JS code would crash (`cfg.llmSafety` is `undefined`),
`some (.error ())` when the judge call throws (the exception propagates to
the caller), and `some (.ok r)` otherwise. -/
def checkWithLLM (judge : Except Unit String) (content : String)
    (cfg : SafetyConfig) : Option (Except Unit SafetyCheckResult) :=
  match cfg.llmSafety with
  | none => none
  | some llmConfig =>
      if ! llmConfig.enabled then
        some (.ok { safe := true, flaggedTopics := [], source := some .llm })
      else if jsTrim content = "" then
        some (.ok { safe := true, flaggedTopics := [], source := some .llm })
      else
        match judge with
        | .error e => some (.error e)
        | .ok rawResponse =>
            let verdict := parseVerdict rawResponse
            if ! verdict.safe then
              some (.ok { safe := false
                          flaggedTopics := verdict.flaggedTopics
                          reason := some (verdict.reason.getD
                            "Content flagged by LLM safety evaluation")
                          source := some .llm })
            else
              some (.ok { safe := true, flaggedTopics := [], source := some .llm })

/-!  ## The older `SafetyChecker` class (`safety-checker.ts`)

Its `parseResponse` is the fail-closed counterpart cited by the spec. -/

/-- Text extraction used by `SafetyChecker.parseResponse`: text blocks
joined by `""` (not `" "`). -/
def scExtractText (content : List ContentPart) : String :=
  String.join (content.filterMap (fun p =>
    match p with
    | .text t => some t
    | _ => none))

/-- The regex `/\{[\s\S]*\}/` applied to `text`: the substring from the
first `{` to the last `}`, when the first `{` precedes the last `}`. -/
def extractBraces (text : String) : Option String :=
  let cs := text.toList
  match cs.findIdx? (fun c => c = '\x7b'), cs.reverse.findIdx? (fun c => c = '\x7d') with
  | some i, some jr =>
      let j := cs.length - 1 - jr
      if i < j then some (String.mk ((cs.drop i).take (j - i + 1))) else none
  | _, _ => none

/-- Embeds `SafetyResult` in `types/index.ts` as it exists at runtime: the TS type
says `safe: boolean`, but `parseResponse` copies `parsed.safe` unchecked,
so we carry the raw JSON value (`Json.null` standing for `undefined`). -/
structure SCSafetyResult where
  safe : Json
  reason : Option Json
  checkedBy : String

/-- Embeds `SafetyChecker.parseResponse` in `safety-checker.ts`: extract a JSON
object from the response text; an unparseable response FAILS CLOSED
(`safe: false`). -/
def scParseResponse (content : List ContentPart) (checkedBy : String) : SCSafetyResult :=
  let text := scExtractText content
  match extractBraces text with
  | none =>
      { safe := .bool false
        reason := some (.str "Safety model returned unparseable response — failing closed")
        checkedBy := checkedBy }
  | some jsonStr =>
      match parseJson jsonStr with
      | some j =>
          { safe := (j.get? "safe").getD .null
            reason := j.get? "reason"
            checkedBy := checkedBy }
      | none =>
          { safe := .bool false
            reason := some (.str "Safety model returned unparseable response — failing closed")
            checkedBy := checkedBy }

/-!  ## Chat orchestrator (`routes/chat.ts`)

The POST handler after schema validation.  External collaborators are
modelled by their outcomes:
  * `judgeIn` / `judgeOut` — the judge-model call made by `checkWithLLM`
    at the input / output stage;
  * `provider` — the target-model call (`provider.chat(...)`), either a
    response or a thrown error message;
  * `freshId` — the `uuidv4()` value used when the caller supplied no
    conversation id.
The overall result is `none` when the JS handler would crash with an
uncaught `TypeError` (reading `.enabled` of an `undefined` `llmSafety`);
otherwise `some` of the outcome, which records whether the target model
was invoked. -/

/-- Embeds `ModelSpec` in `types/index.ts` (target-model selector). -/
structure ModelSpec where
  provider : JudgeProvider
  modelId : String
deriving DecidableEq

/-- Token usage counters. -/
structure Usage where
  inputTokens : Nat
  outputTokens : Nat
deriving DecidableEq

/-- What `provider.chat` resolves to. -/
structure ProviderResponse where
  message : ChatMessage
  usage : Option Usage := none
deriving DecidableEq

/-- The validated request body (`ChatRequestSchema`), fields the pipeline
reads.  `temperature` is forwarded opaquely to the provider and omitted. -/
structure ChatBody where
  conversationId : Option String := none
  model : ModelSpec
  messages : List ChatMessage
  safetyConfig : Option SafetyOverrides := none
deriving DecidableEq

/-- Error codes of `ChatErrorResponse`. -/
inductive ErrorCode where
  | INVALID_REQUEST
  | INPUT_SAFETY_VIOLATION
  | SAFETY_CHECK_ERROR
  | PROVIDER_ERROR
deriving DecidableEq

/-- Embeds `safetyMeta` of `ChatResponse`. -/
structure SafetyMeta where
  inputCheckPassed : Bool
  outputCheckPassed : Bool
  flaggedTopics : List String
  layersRun : List Layer
  flaggedBy : Option Layer := none
deriving DecidableEq

/-- Embeds `ChatResponse` in `types/index.ts`. -/
structure ChatResponse where
  conversationId : String
  model : ModelSpec
  message : ChatMessage
  usage : Option Usage := none
  safetyMeta : SafetyMeta
deriving DecidableEq

/-- What the handler sends: an error object (4xx/5xx) or a `ChatResponse`
(HTTP 200). -/
inductive ChatResult where
  | error (code : ErrorCode) (message : String)
  | success (resp : ChatResponse)
deriving DecidableEq

/-- Outcome of one handler run, recording whether the target model was
invoked (`provider.chat` reached). -/
structure RunOutcome where
  result : ChatResult
  providerInvoked : Bool
deriving DecidableEq

/-- The fixed refusal text substituted for blocked output (both output
layers use this same literal). -/
def refusalText : String :=
  "I'm sorry, but I can't provide that information. Let me know if there's something else I can help you with for your studies!"

/-- The distinct apology used when the output-stage semantic check fails
(throws) rather than returning a verdict. -/
def verifyFailText : String :=
  "I'm sorry, I encountered an issue verifying my response. Please try again."

/-- The refusal message object (role assistant, single text part). -/
def refusalMessage : ChatMessage :=
  { role := .assistant, content := [.text refusalText] }

/-- Fallback reason for input-safety rejections. -/
def inputViolationFallback : String :=
  "Your message was flagged by our safety filters. Please rephrase."

/-- Input text for the input-stage semantic check: text of user messages,
joined by newlines (lines 76-79 of `chat.ts`). -/
def userInputText (messages : List ChatMessage) : String :=
  jsJoin "\n"
    ((messages.filter (fun m => m.role = .user)).map (fun m => extractText m.content))

/-- Steps 6-8 of the handler: output keyword layer, output semantic layer,
clean response. -/
def outputStage (body : ChatBody) (cfg : SafetyConfig) (llmCfg : LLMSafetyConfig)
    (layersRun : List Layer) (judgeOut : Except Unit String) (freshId : String)
    (providerResponse : ProviderResponse) : Option ChatResult :=
  let convId := body.conversationId.getD freshId
  let keywordOutputCheck := checkOutput providerResponse.message cfg
  if ! keywordOutputCheck.safe then
    some (.success
      { conversationId := convId
        model := body.model
        message := refusalMessage
        safetyMeta :=
          { inputCheckPassed := true
            outputCheckPassed := false
            flaggedTopics := keywordOutputCheck.flaggedTopics
            layersRun := layersRun
            flaggedBy := some .keyword } })
  else if llmCfg.enabled then
    match checkWithLLM judgeOut (extractText providerResponse.message.content) cfg with
    | none => none
    | some (.error _) =>
        some (.success
          { conversationId := convId
            model := body.model
            message := { role := .assistant, content := [.text verifyFailText] }
            safetyMeta :=
              { inputCheckPassed := true
                outputCheckPassed := false
                flaggedTopics := []
                layersRun := layersRun
                flaggedBy := some .llm } })
    | some (.ok llmOutputCheck) =>
        if ! llmOutputCheck.safe then
          some (.success
            { conversationId := convId
              model := body.model
              message := refusalMessage
              safetyMeta :=
                { inputCheckPassed := true
                  outputCheckPassed := false
                  flaggedTopics := llmOutputCheck.flaggedTopics
                  layersRun := layersRun
                  flaggedBy := some .llm } })
        else
          some (.success
            { conversationId := convId
              model := body.model
              message := providerResponse.message
              usage := providerResponse.usage
              safetyMeta :=
                { inputCheckPassed := true
                  outputCheckPassed := true
                  flaggedTopics := []
                  layersRun := layersRun } })
  else
    some (.success
      { conversationId := convId
        model := body.model
        message := providerResponse.message
        usage := providerResponse.usage
        safetyMeta :=
          { inputCheckPassed := true
            outputCheckPassed := true
            flaggedTopics := []
            layersRun := layersRun } })

/-- Step 5 of the handler: target-model call, then the output stage. -/
def providerStage (body : ChatBody) (cfg : SafetyConfig) (llmCfg : LLMSafetyConfig)
    (layersRun : List Layer) (judgeOut : Except Unit String) (freshId : String)
    (provider : Except String ProviderResponse) : Option RunOutcome :=
  match provider with
  | .error msg => some { result := .error .PROVIDER_ERROR msg, providerInvoked := true }
  | .ok providerResponse =>
      (outputStage body cfg llmCfg layersRun judgeOut freshId providerResponse).map
        (fun r => { result := r, providerInvoked := true })

/-- The POST `/api/chat` handler after schema validation (steps 2-8 of
`chat.ts`). -/
def handleChat (body : ChatBody) (judgeIn judgeOut : Except Unit String)
    (provider : Except String ProviderResponse) (freshId : String) :
    Option RunOutcome :=
  let cfg := mergeSafetyConfig body.safetyConfig
  match cfg.llmSafety with
  | none => none
  | some llmCfg =>
      let layersRun : List Layer :=
        if llmCfg.enabled then [.keyword, .llm] else [.keyword]
      let keywordInputCheck := checkInput body.messages cfg
      if ! keywordInputCheck.safe then
        some { result := .error .INPUT_SAFETY_VIOLATION
                 (keywordInputCheck.reason.getD inputViolationFallback)
               providerInvoked := false }
      else if llmCfg.enabled then
        match checkWithLLM judgeIn (userInputText body.messages) cfg with
        | none => none
        | some (.error _) =>
            some { result := .error .SAFETY_CHECK_ERROR
                     "Unable to complete safety evaluation. Please try again."
                   providerInvoked := false }
        | some (.ok llmInputCheck) =>
            if ! llmInputCheck.safe then
              some { result := .error .INPUT_SAFETY_VIOLATION
                       (llmInputCheck.reason.getD inputViolationFallback)
                     providerInvoked := false }
            else providerStage body cfg llmCfg layersRun judgeOut freshId provider
      else providerStage body cfg llmCfg layersRun judgeOut freshId provider

/-!  ## Helper lemmas -/

theorem mem_jsSetDedupAux {α : Type} [DecidableEq α] (a : α) :
    ∀ (xs seen : List α), a ∈ jsSetDedupAux seen xs ↔ (a ∈ xs ∧ a ∉ seen) := by
  intro xs
  induction xs with
  | nil => intro seen; simp [jsSetDedupAux]
  | cons x xs ih =>
      intro seen
      by_cases hx : x ∈ seen
      · simp only [jsSetDedupAux, if_pos hx, ih, List.mem_cons]
        constructor
        · rintro ⟨h1, h2⟩; exact ⟨Or.inr h1, h2⟩
        · rintro ⟨h1 | h1, h2⟩
          · exact absurd (h1 ▸ hx) h2
          · exact ⟨h1, h2⟩
      · simp only [jsSetDedupAux, if_neg hx, List.mem_cons, ih]
        constructor
        · rintro (rfl | ⟨h1, h2⟩)
          · exact ⟨Or.inl rfl, hx⟩
          · exact ⟨Or.inr h1, fun hs => h2 (Or.inr hs)⟩
        · rintro ⟨rfl | h1, h2⟩
          · exact Or.inl rfl
          · by_cases hax : a = x
            · exact Or.inl hax
            · exact Or.inr ⟨h1, fun hc => hc.elim hax h2⟩

theorem mem_jsSetDedup {α : Type} [DecidableEq α] (a : α) (xs : List α) :
    a ∈ jsSetDedup xs ↔ a ∈ xs := by
  simp [jsSetDedup, mem_jsSetDedupAux]

theorem validatePart_flaggedTopics (cfg : SafetyConfig) (p : ContentPart)
    (r : SafetyCheckResult) (h : validatePart cfg p = some r) :
    r.flaggedTopics = [] := by
  cases p <;> simp only [validatePart] at h <;>
    (repeat' split at h) <;> simp_all <;> subst h <;> rfl

theorem findSome?_pred {α β : Type} (f : α → Option β) (P : β → Prop)
    (hf : ∀ a b, f a = some b → P b) :
    ∀ (l : List α) (b : β), l.findSome? f = some b → P b := by
  intro l
  induction l with
  | nil => intro b h; simp [List.findSome?] at h
  | cons x xs ih =>
      intro b h
      rw [List.findSome?_cons] at h
      cases hx : f x with
      | some v => rw [hx] at h; exact hf x b (hx.trans h)
      | none => rw [hx] at h; exact ih b h

theorem validateStructure_flaggedTopics (ms : List ChatMessage) (cfg : SafetyConfig) :
    (validateStructure ms cfg).flaggedTopics = [] := by
  unfold validateStructure
  cases hfs : ms.findSome? (fun msg => msg.content.findSome? (validatePart cfg)) with
  | none => rfl
  | some r =>
      have : r.flaggedTopics = [] := by
        refine findSome?_pred _ (fun b => b.flaggedTopics = []) ?_ ms r hfs
        intro msg b hb
        exact findSome?_pred _ (fun b => b.flaggedTopics = [])
          (fun p b hp => validatePart_flaggedTopics cfg p b hp) msg.content b hb
      simpa using this

/-!  ## Claim theorems -/

/-- A concrete target-model spec used by concrete scenarios. -/
def sampleModelSpec : ModelSpec := { provider := .gpt, modelId := "gpt-4o" }

/-- C1: the spec mandates that a judge response whose text cannot be parsed
as a JSON verdict is treated as UNSAFE (fail-closed).  The semantic
classifier actually in the pipeline (`parseVerdict` / `checkWithLLM` in
`llm-safety-checker.ts`) does the opposite: at the unparseable response
"I think it is probably fine" it produces a SAFE verdict, and `checkWithLLM`
lets the content pass the semantic layer.  The older
`SafetyChecker.parseResponse` (`safety-checker.ts`) fails closed on the
same response, confirming the divergence the spec flags in §9. -/
theorem c1_unparseable_verdict_treated_safe :
    parseVerdict "I think it is probably fine" =
      { safe := true, flaggedTopics := [], reason := none } ∧
    checkWithLLM (.ok "I think it is probably fine") "some student question"
        DEFAULT_SAFETY_CONFIG =
      some (.ok { safe := true, flaggedTopics := [], reason := none, source := some .llm }) ∧
    (scParseResponse [.text "I think it is probably fine"] "gpt").safe = Json.bool false := by
  exact ⟨rfl, rfl, rfl⟩

/-- C2: `merge(overrides)` is claimed to always return a complete
`SafetyConfig` with the `llmSafety` sub-config present.  The merge with
absent overrides does return the platform default unchanged, but the
return object built for PRESENT overrides omits `llmSafety` (contradicting
the declared TS return type `SafetyConfig`), so the orchestrator crashes
with a `TypeError` reading `.enabled` whenever any override object is
supplied — modelled by `handleChat ... = none`. -/
theorem c2_merge_drops_llmSafety :
    mergeSafetyConfig none = DEFAULT_SAFETY_CONFIG ∧
    (mergeSafetyConfig (some emptyOverrides)).llmSafety = none ∧
    handleChat
      { model := sampleModelSpec
        messages := [{ role := .user, content := [.text "hello"] }]
        safetyConfig := some emptyOverrides }
      (.ok "\x7b\"safe\": true\x7d") (.ok "\x7b\"safe\": true\x7d")
      (.ok { message := { role := .assistant, content := [.text "hi"] } })
      "conv-1" = none := by
  exact ⟨rfl, rfl, rfl⟩

/-- C9: a syntactically valid JSON verdict whose `safe` field is absent or
not a boolean — e.g. the object `\x7b\x7d` — is treated as SAFE: `parseVerdict`
defaults `safe` to `true`, and `checkWithLLM` returns a passing result with
no flagged topics. -/
theorem c9_json_without_safe_field_passes (cfg : SafetyConfig)
    (llmCfg : LLMSafetyConfig) (content : String)
    (h1 : cfg.llmSafety = some llmCfg) (h2 : llmCfg.enabled = true)
    (h3 : ¬ jsTrim content = "") :
    parseVerdict "\x7b\x7d" = { safe := true, flaggedTopics := [], reason := none } ∧
    checkWithLLM (.ok "\x7b\x7d") content cfg =
      some (.ok { safe := true, flaggedTopics := [], source := some .llm }) := by
  refine ⟨rfl, ?_⟩
  have hv : parseVerdict "\x7b\x7d" = { safe := true, flaggedTopics := [], reason := none } := rfl
  simp [checkWithLLM, h1, h2, h3, hv]

/-- Witness for C9 at a concrete configuration and content. -/
theorem c9_json_without_safe_field_passes_witness :
    parseVerdict "\x7b\x7d" = { safe := true, flaggedTopics := [], reason := none } ∧
    checkWithLLM (.ok "\x7b\x7d") "hello" DEFAULT_SAFETY_CONFIG =
      some (.ok { safe := true, flaggedTopics := [], source := some .llm }) :=
  c9_json_without_safe_field_passes DEFAULT_SAFETY_CONFIG
    { enabled := true, model := DEFAULT_LLM_SAFETY_MODEL } "hello" rfl rfl (by decide)

/-- The Scenario-E override: `blockedTopics := ["violence"]` only. -/
def violenceOnlyOverrides : SafetyOverrides :=
  { emptyOverrides with blockedTopics := some [.violence] }

/-- C3: merging is monotonically tightening: merged numeric limits never
exceed the defaults, the merged blocked-topic set contains every default
topic, every merged MIME type is in the default allow-list, and the
Scenario-E override `blockedTopics := ["violence"]` still yields exactly
the nine default topics. -/
theorem c3_merge_monotone (o : SafetyOverrides) :
    (mergeSafetyConfig (some o)).maxInputLength ≤ DEFAULT_SAFETY_CONFIG.maxInputLength ∧
    (mergeSafetyConfig (some o)).maxOutputTokens ≤ DEFAULT_SAFETY_CONFIG.maxOutputTokens ∧
    (mergeSafetyConfig (some o)).maxFileSizeBytes ≤ DEFAULT_SAFETY_CONFIG.maxFileSizeBytes ∧
    (∀ t ∈ DEFAULT_SAFETY_CONFIG.blockedTopics,
      t ∈ (mergeSafetyConfig (some o)).blockedTopics) ∧
    (∀ s ∈ (mergeSafetyConfig (some o)).allowedFileMimeTypes,
      s ∈ DEFAULT_SAFETY_CONFIG.allowedFileMimeTypes) ∧
    (mergeSafetyConfig (some violenceOnlyOverrides)).blockedTopics =
      DEFAULT_SAFETY_CONFIG.blockedTopics := by
  refine ⟨?_, ?_, ?_, ?_, ?_, by decide⟩
  · simp only [mergeSafetyConfig]
    split
    · exact min_le_right _ _
    · exact le_refl _
  · simp only [mergeSafetyConfig]
    split
    · exact min_le_right _ _
    · exact le_refl _
  · simp only [mergeSafetyConfig]
    split
    · exact min_le_right _ _
    · exact le_refl _
  · intro t ht
    simp only [mergeSafetyConfig]
    cases hb : o.blockedTopics with
    | none => exact ht
    | some ts =>
        simp only [unionTopics, mem_jsSetDedup, List.mem_append]
        exact Or.inl ht
  · intro s hs
    simp only [mergeSafetyConfig] at hs
    cases hb : o.allowedFileMimeTypes with
    | none => rw [hb] at hs; exact hs
    | some ts =>
        rw [hb] at hs
        simp only [intersectArrays, List.mem_filter] at hs
        exact List.mem_of_elem_eq_true hs.2

/-- Witness for C3 at the Scenario-E override. -/
theorem c3_merge_monotone_witness :
    (mergeSafetyConfig (some violenceOnlyOverrides)).maxInputLength ≤
      DEFAULT_SAFETY_CONFIG.maxInputLength ∧
    BlockedTopic.self_harm ∈ (mergeSafetyConfig (some violenceOnlyOverrides)).blockedTopics ∧
    (mergeSafetyConfig (some violenceOnlyOverrides)).blockedTopics =
      DEFAULT_SAFETY_CONFIG.blockedTopics := by
  have h := c3_merge_monotone violenceOnlyOverrides
  exact ⟨h.1, h.2.2.2.1 BlockedTopic.self_harm (by decide), h.2.2.2.2.2⟩

/-- The Scenario-A request: a user message "kill yourself" with no overrides. -/
def killMessage : ChatMessage := { role := .user, content := [.text "kill yourself"] }

/-- Scenario-A request body. -/
def killBody : ChatBody := { model := sampleModelSpec, messages := [killMessage] }

/-- Counterexample to C4 as stated: for the input "kill yourself" under the
platform defaults, the keyword filter flags the topic `violence` — NOT
`self_harm`.  (`/\bkill\s+(you|...|yourself|...)\b/` lives under `violence`
in `keyword-lists.ts`; the `self_harm` list only has `kill myself`.) -/
theorem c4_flagged_topic_is_violence_not_self_harm :
    (checkInput [killMessage] DEFAULT_SAFETY_CONFIG).flaggedTopics = ["violence"] ∧
    (checkInput [killMessage] DEFAULT_SAFETY_CONFIG).flaggedTopics ≠ ["self_harm"] ∧
    (checkInput [killMessage] DEFAULT_SAFETY_CONFIG).reason =
      some "Content flagged for: violence" := by
  exact ⟨by decide, by decide, by decide⟩

/-- C4 (amended): the input message "kill yourself" under the platform
defaults is stopped at the input-keyword stage with an
`INPUT_SAFETY_VIOLATION` error whose flagged topic is `violence`, and the
target model is never invoked (the outcome is independent of the judge and
provider oracles, with `providerInvoked = false`). -/
theorem c4_kill_yourself_rejected_at_keyword_stage
    (judgeIn judgeOut : Except Unit String)
    (provider : Except String ProviderResponse) (freshId : String) :
    handleChat killBody judgeIn judgeOut provider freshId =
      some { result := .error .INPUT_SAFETY_VIOLATION "Content flagged for: violence"
             providerInvoked := false } := rfl

/-- C7: structural validation runs first in `checkInput`: whenever the
structural pass fails, `checkInput` returns exactly the structural result,
which carries an empty flagged-topics list — no topic scan contributes. -/
theorem c7_structural_violation_short_circuits (ms : List ChatMessage)
    (cfg : SafetyConfig) (h : (validateStructure ms cfg).safe = false) :
    checkInput ms cfg = validateStructure ms cfg ∧
    (checkInput ms cfg).flaggedTopics = [] := by
  have he : checkInput ms cfg = validateStructure ms cfg := by
    unfold checkInput
    simp [h]
  exact ⟨he, he ▸ validateStructure_flaggedTopics ms cfg⟩

/-- The Scenario-C override: `maxInputLength := 50`. -/
def maxLen50Overrides : SafetyOverrides :=
  { emptyOverrides with maxInputLength := some 50 }

/-- A 60-character user message that also contains topic-flaggable phrases. -/
def sixtyCharMessage : ChatMessage :=
  { role := .user
    content := [.text "kill yourself kill yourself kill yourself kill yourself!!!!!"] }

/-- Witness for C7 (Scenario C): with merged `maxInputLength = 50`, a
60-character message is rejected for length with NO flagged topics, even
though its text would match the violence pattern had scanning run. -/
theorem c7_structural_violation_short_circuits_witness :
    (mergeSafetyConfig (some maxLen50Overrides)).maxInputLength = 50 ∧
    (validateStructure [sixtyCharMessage] (mergeSafetyConfig (some maxLen50Overrides))).safe
      = false ∧
    checkInput [sixtyCharMessage] (mergeSafetyConfig (some maxLen50Overrides)) =
      { safe := false
        flaggedTopics := []
        reason := some "Input text exceeds maximum length of 50 characters" } ∧
    (scanText (extractText sixtyCharMessage.content)
      (mergeSafetyConfig (some maxLen50Overrides)).blockedTopics).safe = false := by
  have h := c7_structural_violation_short_circuits [sixtyCharMessage]
    (mergeSafetyConfig (some maxLen50Overrides)) (by decide)
  refine ⟨by decide, by decide, ?_, by decide⟩
  rw [h.1]
  decide

/-- A tight config for C10: low length cap, no images, no files, tiny file
size cap (derived from the platform default). -/
def strictOutputCfg : SafetyConfig :=
  { DEFAULT_SAFETY_CONFIG with
      maxInputLength := 5
      allowImageInput := false
      allowFileUpload := false
      maxFileSizeBytes := 1 }

/-- An assistant message that violates every structural rule of
`strictOutputCfg`: over-long text, an image part, and a file part with a
disallowed MIME type and oversize decoded data. -/
def structurallyWildMessage : ChatMessage :=
  { role := .assistant
    content :=
      [ .text "hello there friend",
        .image "AAAA" "image/png",
        .file "AAAAAAAA" "application/zip" "evil.zip" ] }

/-- C10: `checkOutput` performs no structural validation: it is literally the
topic scan of the message's concatenated text parts, so its result depends
only on that text; a message violating every structural input rule is still
reported safe when no topic pattern matches its text. -/
theorem c10_checkOutput_no_structural_validation :
    (∀ (msg : ChatMessage) (cfg : SafetyConfig),
      checkOutput msg cfg = scanText (extractText msg.content) cfg.blockedTopics) ∧
    (∀ (m1 m2 : ChatMessage) (cfg : SafetyConfig),
      extractText m1.content = extractText m2.content →
      checkOutput m1 cfg = checkOutput m2 cfg) ∧
    (checkOutput structurallyWildMessage strictOutputCfg =
        { safe := true, flaggedTopics := [] } ∧
      (validateStructure [structurallyWildMessage] strictOutputCfg).safe = false) := by
  refine ⟨fun _ _ => rfl, fun m1 m2 cfg h => ?_, by decide, by decide⟩
  unfold checkOutput
  rw [h]

/-- Witness for C10: two messages with identical text parts — one clean,
one carrying an image disallowed for input — get identical output verdicts. -/
theorem c10_checkOutput_no_structural_validation_witness :
    checkOutput { role := .assistant, content := [.text "hi"] } strictOutputCfg =
      checkOutput { role := .assistant, content := [.text "hi", .image "AAAA" "image/png"] }
        strictOutputCfg :=
  c10_checkOutput_no_structural_validation.2.1
    { role := .assistant, content := [.text "hi"] }
    { role := .assistant, content := [.text "hi", .image "AAAA" "image/png"] }
    strictOutputCfg rfl

/-!  ## Orchestrator lemmas -/

theorem outputStage_success_layersRun (body : ChatBody) (cfg : SafetyConfig)
    (llmCfg : LLMSafetyConfig) (layers : List Layer) (judgeOut : Except Unit String)
    (freshId : String) (presp : ProviderResponse) (r : ChatResponse)
    (h : outputStage body cfg llmCfg layers judgeOut freshId presp = some (.success r)) :
    r.safetyMeta.layersRun = layers := by
  simp only [outputStage] at h
  repeat' split at h
  all_goals
    first
      | exact Option.noConfusion h
      | (simp only [Option.some.injEq, ChatResult.success.injEq] at h; subst h; rfl)

theorem providerStage_success_layersRun (body : ChatBody) (cfg : SafetyConfig)
    (llmCfg : LLMSafetyConfig) (layers : List Layer) (judgeOut : Except Unit String)
    (freshId : String) (provider : Except String ProviderResponse) (o : RunOutcome)
    (resp : ChatResponse)
    (h : providerStage body cfg llmCfg layers judgeOut freshId provider = some o)
    (hs : o.result = .success resp) :
    resp.safetyMeta.layersRun = layers := by
  unfold providerStage at h
  cases provider with
  | error msg =>
      simp only [Option.some.injEq] at h
      subst h
      simp at hs
  | ok presp =>
      rw [Option.map_eq_some'] at h
      obtain ⟨res, hres, hfo⟩ := h
      subst hfo
      simp only at hs
      subst hs
      exact outputStage_success_layersRun body cfg llmCfg layers judgeOut freshId presp resp hres

/-- C8: every `ChatResponse` the orchestrator produces lists the layers it
ran as `[keyword, llm]` when the semantic sub-config of the merged request
config was enabled and `[keyword]` otherwise; hence `keyword` always comes
first and the semantic (`llm`) layer appears iff it was enabled. -/
theorem c8_layersRun_order_and_membership (body : ChatBody)
    (jIn jOut : Except Unit String) (prov : Except String ProviderResponse)
    (freshId : String) (o : RunOutcome) (resp : ChatResponse)
    (h : handleChat body jIn jOut prov freshId = some o)
    (hs : o.result = .success resp) :
    ∃ llmCfg, (mergeSafetyConfig body.safetyConfig).llmSafety = some llmCfg ∧
      resp.safetyMeta.layersRun =
        (if llmCfg.enabled then [Layer.keyword, Layer.llm] else [Layer.keyword]) ∧
      ((Layer.llm ∈ resp.safetyMeta.layersRun) ↔ llmCfg.enabled = true) ∧
      resp.safetyMeta.layersRun.head? = some Layer.keyword := by
  simp only [handleChat] at h
  cases hm : (mergeSafetyConfig body.safetyConfig).llmSafety with
  | none => rw [hm] at h; simp at h
  | some llmCfg =>
      rw [hm] at h
      simp only at h
      have main : resp.safetyMeta.layersRun =
          (if llmCfg.enabled then [Layer.keyword, Layer.llm] else [Layer.keyword]) := by
        split at h
        · simp only [Option.some.injEq] at h; subst h; simp at hs
        · rename_i hkw
          split at h
          · rename_i hen
            split at h
            · simp at h
            · simp only [Option.some.injEq] at h; subst h; simp at hs
            · split at h
              · simp only [Option.some.injEq] at h; subst h; simp at hs
              · have hl := providerStage_success_layersRun body _ llmCfg _ jOut freshId
                  prov o resp h hs
                rw [hl, if_pos hen]
          · rename_i hen
            have hl := providerStage_success_layersRun body _ llmCfg _ jOut freshId
              prov o resp h hs
            rw [hl, if_neg hen]
      refine ⟨llmCfg, rfl, main, ?_, ?_⟩
      · rw [main]; cases hen : llmCfg.enabled <;> simp
      · rw [main]; cases hen : llmCfg.enabled <;> simp

/-- A benign request body used by concrete witnesses. -/
def helloBody : ChatBody :=
  { model := sampleModelSpec
    messages := [{ role := .user, content := [.text "hello"] }] }

/-- A judge-model outcome returning a well-formed SAFE verdict. -/
def safeJudge : Except Unit String := .ok "\x7b\"safe\": true\x7d"

/-- The clean response `handleChat` produces for `helloBody` with safe
judge verdicts and a benign provider reply. -/
def helloResp : ChatResponse :=
  { conversationId := "conv-1"
    model := sampleModelSpec
    message := { role := .assistant, content := [.text "hi there"] }
    safetyMeta :=
      { inputCheckPassed := true
        outputCheckPassed := true
        flaggedTopics := []
        layersRun := [.keyword, .llm] } }

/-- Witness for C8 on a concrete clean run. -/
theorem c8_layersRun_order_and_membership_witness :
    ∃ llmCfg, (mergeSafetyConfig helloBody.safetyConfig).llmSafety = some llmCfg ∧
      helloResp.safetyMeta.layersRun =
        (if llmCfg.enabled then [Layer.keyword, Layer.llm] else [Layer.keyword]) ∧
      ((Layer.llm ∈ helloResp.safetyMeta.layersRun) ↔ llmCfg.enabled = true) ∧
      helloResp.safetyMeta.layersRun.head? = some Layer.keyword :=
  c8_layersRun_order_and_membership helloBody safeJudge safeJudge
    (.ok { message := { role := .assistant, content := [.text "hi there"] } }) "conv-1"
    { result := .success helloResp, providerInvoked := true } helloResp (by decide) rfl

/-- C5: when the semantic layer is enabled, the keyword stage passes, and
the input-stage judge call throws, the request is rejected with the
distinct `SAFETY_CHECK_ERROR` code (neither `INPUT_SAFETY_VIOLATION` nor a
success) and the target model is never invoked. -/
theorem c5_input_judge_throw_rejects (body : ChatBody) (jOut : Except Unit String)
    (prov : Except String ProviderResponse) (freshId : String)
    (llmCfg : LLMSafetyConfig)
    (h1 : (mergeSafetyConfig body.safetyConfig).llmSafety = some llmCfg)
    (h2 : llmCfg.enabled = true)
    (h3 : (checkInput body.messages (mergeSafetyConfig body.safetyConfig)).safe = true)
    (h4 : ¬ jsTrim (userInputText body.messages) = "") :
    handleChat body (.error ()) jOut prov freshId =
      some { result := .error .SAFETY_CHECK_ERROR
               "Unable to complete safety evaluation. Please try again."
             providerInvoked := false } := by
  have hck : checkWithLLM (.error ()) (userInputText body.messages)
      (mergeSafetyConfig body.safetyConfig) = some (.error ()) := by
    simp [checkWithLLM, h1, h2, h4]
  simp [handleChat, h1, h2, h3, hck]

/-- Witness for C5 on a concrete request. -/
theorem c5_input_judge_throw_rejects_witness :
    handleChat helloBody (.error ()) safeJudge
      (.ok { message := { role := .assistant, content := [.text "hi there"] } }) "conv-1" =
      some { result := .error .SAFETY_CHECK_ERROR
               "Unable to complete safety evaluation. Please try again."
             providerInvoked := false } :=
  c5_input_judge_throw_rejects helloBody safeJudge
    (.ok { message := { role := .assistant, content := [.text "hi there"] } }) "conv-1"
    { enabled := true, model := DEFAULT_LLM_SAFETY_MODEL } rfl rfl (by decide) (by decide)

/-- Predicate for "the model's output is blocked by an output safety layer": the keyword
scan of the produced message is unsafe, or (the keyword scan passes,) the
semantic layer is enabled and returns an unsafe verdict. -/
def OutputBlocked (cfg : SafetyConfig) (llmCfg : LLMSafetyConfig)
    (judgeOut : Except Unit String) (presp : ProviderResponse) : Prop :=
  (checkOutput presp.message cfg).safe = false ∨
  ((checkOutput presp.message cfg).safe = true ∧ llmCfg.enabled = true ∧
    ∃ r, checkWithLLM judgeOut (extractText presp.message.content) cfg =
        some (.ok r) ∧ r.safe = false)

theorem outputStage_blocked_refusal (body : ChatBody) (cfg : SafetyConfig)
    (llmCfg : LLMSafetyConfig) (layers : List Layer) (judgeOut : Except Unit String)
    (freshId : String) (presp : ProviderResponse)
    (hb : OutputBlocked cfg llmCfg judgeOut presp) :
    ∃ r, outputStage body cfg llmCfg layers judgeOut freshId presp =
        some (.success r) ∧ r.message = refusalMessage := by
  rcases hb with hkw | ⟨hkwsafe, hen, r0, hck, hr0⟩
  · refine ⟨{ conversationId := body.conversationId.getD freshId
              model := body.model
              message := refusalMessage
              safetyMeta :=
                { inputCheckPassed := true
                  outputCheckPassed := false
                  flaggedTopics := (checkOutput presp.message cfg).flaggedTopics
                  layersRun := layers
                  flaggedBy := some .keyword } }, ?_, rfl⟩
    simp [outputStage, hkw]
  · refine ⟨{ conversationId := body.conversationId.getD freshId
              model := body.model
              message := refusalMessage
              safetyMeta :=
                { inputCheckPassed := true
                  outputCheckPassed := false
                  flaggedTopics := r0.flaggedTopics
                  layersRun := layers
                  flaggedBy := some .llm } }, ?_, rfl⟩
    simp [outputStage, hkwsafe, hen, hck, hr0]

/-- C6: whenever the produced output is blocked by either output safety
layer, the request still completes as a success (never an error) and the
returned message is the fixed refusal constant: any two blocked runs return
the identical text, and that text differs from the original model output
whenever the original is not itself the refusal string. -/
theorem c6_blocked_output_replaced_by_fixed_refusal
    (body1 body2 : ChatBody) (cfg1 cfg2 : SafetyConfig)
    (llm1 llm2 : LLMSafetyConfig) (layers1 layers2 : List Layer)
    (j1 j2 : Except Unit String) (f1 f2 : String) (p1 p2 : ProviderResponse)
    (hb1 : OutputBlocked cfg1 llm1 j1 p1) (hb2 : OutputBlocked cfg2 llm2 j2 p2) :
    ∃ r1 r2,
      outputStage body1 cfg1 llm1 layers1 j1 f1 p1 = some (.success r1) ∧
      outputStage body2 cfg2 llm2 layers2 j2 f2 p2 = some (.success r2) ∧
      r1.message = refusalMessage ∧ r2.message = refusalMessage ∧
      extractText r1.message.content = extractText r2.message.content ∧
      (extractText p1.message.content ≠ refusalText →
        extractText r1.message.content ≠ extractText p1.message.content) := by
  obtain ⟨r1, h1, hm1⟩ :=
    outputStage_blocked_refusal body1 cfg1 llm1 layers1 j1 f1 p1 hb1
  obtain ⟨r2, h2, hm2⟩ :=
    outputStage_blocked_refusal body2 cfg2 llm2 layers2 j2 f2 p2 hb2
  have ht1 : extractText r1.message.content = refusalText := by rw [hm1]; rfl
  have ht2 : extractText r2.message.content = refusalText := by rw [hm2]; rfl
  refine ⟨r1, r2, h1, h2, hm1, hm2, by rw [ht1, ht2], ?_⟩
  intro hne
  rw [ht1]
  exact fun hc => hne hc.symm

/-- A profane provider reply (flagged by the `damn` pattern). -/
def damnReply : ProviderResponse :=
  { message := { role := .assistant, content := [.text "damn it"] } }

/-- Another profane provider reply (flagged by the `ass+hole` pattern). -/
def insultReply : ProviderResponse :=
  { message := { role := .assistant, content := [.text "you asshole"] } }

/-- The default semantic sub-config (as carried by the platform default). -/
def defaultLLMCfg : LLMSafetyConfig :=
  { enabled := true, model := DEFAULT_LLM_SAFETY_MODEL }

/-- Witness for C6: two different profane model outputs, both blocked by
the output keyword layer under the platform defaults. -/
theorem c6_blocked_output_replaced_by_fixed_refusal_witness :
    ∃ r1 r2,
      outputStage helloBody DEFAULT_SAFETY_CONFIG defaultLLMCfg [.keyword, .llm]
          safeJudge "conv-1" damnReply = some (.success r1) ∧
      outputStage helloBody DEFAULT_SAFETY_CONFIG defaultLLMCfg [.keyword, .llm]
          safeJudge "conv-1" insultReply = some (.success r2) ∧
      r1.message = refusalMessage ∧ r2.message = refusalMessage ∧
      extractText r1.message.content = extractText r2.message.content ∧
      (extractText damnReply.message.content ≠ refusalText →
        extractText r1.message.content ≠ extractText damnReply.message.content) :=
  c6_blocked_output_replaced_by_fixed_refusal helloBody helloBody
    DEFAULT_SAFETY_CONFIG DEFAULT_SAFETY_CONFIG defaultLLMCfg defaultLLMCfg
    [.keyword, .llm] [.keyword, .llm] safeJudge safeJudge "conv-1" "conv-1"
    damnReply insultReply (Or.inl (by decide)) (Or.inl (by decide))
